import Mathlib

/-!
Shallow embedding of the token-lifecycle and authorization subsystem of the
typescript-express-starter repository:
  - token codec (jsonwebtoken sign/verify as used by src/services/token.service.ts)
  - token store and credential store (Prisma models, modelled as in-memory lists)
  - token service (generateToken, saveToken, verifyToken, generateAuthTokens,
    generateResetPasswordToken, generateVerifyEmailToken)
  - user service (isEmailTaken, createUser, getUserById, getUserByEmail,
    updateUserById)
  - auth service (logout, refreshAuth, resetPassword, verifyEmail)
  - authorization engine (passport jwt strategy + verifyCallback middleware)

Stateful code is modelled by explicit state passing: each service operation
takes a `DB` and returns its result together with the database state at the
moment the operation returned or threw.  Clock readings are unix seconds
passed in explicitly as `now`.
-/

/-- Token kinds, from the Prisma TokenType enum. -/
inductive TokenType
  | ACCESS
  | REFRESH
  | RESET_PASSWORD
  | VERIFY_EMAIL
deriving DecidableEq, Repr

/-- User roles, from the Prisma Role enum. -/
inductive Role
  | USER
  | ADMIN
deriving DecidableEq, Repr

/-- The JWT claim set built by generateToken: {sub, iat, exp, type}. -/
structure TokenPayload where
  sub : String
  iat : Nat
  exp : Nat
  type : TokenType
deriving DecidableEq, Repr

/-- A signed token string.  jsonwebtoken HS256 signing is deterministic, so a
token string is faithfully modelled by the payload it encodes together with
the secret it was signed with; two strings are equal exactly when payload and
secret coincide. -/
structure Jwt where
  payload : TokenPayload
  signedWith : String
deriving DecidableEq, Repr

/-- Errors thrown by jsonwebtoken verify. -/
inductive JwtError
  | invalidSignature
  | tokenExpired
deriving DecidableEq, Repr

/-- Models jwt.sign(payload, secret). -/
def jwtSign (payload : TokenPayload) (secret : String) : Jwt :=
  { payload := payload, signedWith := secret }

/-- Models jwt.verify(token, secret) at clock reading `now`: checks the
signature, then rejects when the embedded exp is not in the future
(jsonwebtoken throws TokenExpiredError when now >= exp, no clock tolerance). -/
def jwtVerifyClaims (t : Jwt) (secret : String) (now : Nat) : Except JwtError TokenPayload :=
  if t.signedWith ≠ secret then .error .invalidSignature
  else if t.payload.exp ≤ now then .error .tokenExpired
  else .ok t.payload

/-- Errors surfaced by the services: raw jsonwebtoken errors, plain
Error(message) throws, and ApiError(statusCode, message). -/
inductive SvcError
  | jwtError (e : JwtError)
  | genericError (msg : String)
  | apiError (statusCode : Nat) (message : String)
deriving DecidableEq, Repr

/-- A persisted row of the Prisma Token model (ids modelled as Nat). -/
structure TokenRecord where
  id : Nat
  token : Jwt
  type : TokenType
  expires : Nat
  blacklisted : Bool
  userId : String
deriving DecidableEq, Repr

/-- A persisted row of the Prisma User model. -/
structure UserRecord where
  id : String
  email : String
  name : String
  password : String
  role : Role
  isEmailVerified : Bool
deriving DecidableEq, Repr

/-- The database state: the user table, the token table, and counters
modelling Prisma id generation for newly created rows. -/
structure DB where
  users : List UserRecord
  tokens : List TokenRecord
  nextTokenId : Nat
  nextUserNum : Nat
deriving DecidableEq, Repr

/-- The jwt section of src/config/config.ts. -/
structure JwtConfig where
  secret : String
  accessExpirationMinutes : Nat
  refreshExpirationDays : Nat
  resetPasswordExpirationMinutes : Nat
  verifyEmailExpirationMinutes : Nat
deriving DecidableEq, Repr

/-- Models bcryptjs hash with salt rounds 8 (salt fixed, since no claim
depends on salting). -/
def bcryptHash (password : String) : String :=
  "$2a$08$" ++ password

/-- Models the npm uuid package validate used by src/utils/validation.ts:
a 36-character 8-4-4-4-12 hexadecimal string with version nibble 1-5 and
variant nibble 8/9/a/b, or the nil UUID. -/
def uuidValidate (s : String) : Bool :=
  s == "00000000-0000-0000-0000-000000000000" ||
  (let l := s.toList
   l.length == 36 &&
   l.enum.all (fun p =>
     if p.1 == 8 || p.1 == 13 || p.1 == 18 || p.1 == 23 then p.2 == '-'
     else if p.1 == 14 then '1' ≤ p.2 && p.2 ≤ '5'
     else if p.1 == 19 then
       p.2 == '8' || p.2 == '9' || p.2 == 'a' || p.2 == 'b' || p.2 == 'A' || p.2 == 'B'
     else ('0' ≤ p.2 && p.2 ≤ '9') || ('a' ≤ p.2 && p.2 ≤ 'f') || ('A' ≤ p.2 && p.2 ≤ 'F')))

/-- isValidCuid from src/utils/validation.ts: c followed by 24 chars in
[a-z0-9]. -/
def isValidCuid (s : String) : Bool :=
  s != "" &&
  (match s.toList with
   | [] => false
   | c :: rest =>
     c == 'c' && rest.length == 24 &&
     rest.all (fun ch => ('a' ≤ ch && ch ≤ 'z') || ('0' ≤ ch && ch ≤ '9')))

/-- isValidUuid from src/utils/validation.ts: a UUID or a CUID (and the
falsy-empty guard). -/
def isValidUuid (id : String) : Bool :=
  id != "" && (uuidValidate id || isValidCuid id)

/-- Models the JS String toLowerCase (characterwise lowering). -/
def jsToLower (s : String) : String :=
  ⟨s.toList.map Char.toLower⟩

/-- Models the JS String trim: strips leading and trailing whitespace. -/
def jsTrim (s : String) : String :=
  ⟨((s.toList.dropWhile Char.isWhitespace).reverse.dropWhile Char.isWhitespace).reverse⟩

/-- Whether a character list contains no whitespace (the regex classes
[^\s@] exclude whitespace). -/
def noWhitespace (l : List Char) : Bool :=
  l.all (fun c => !c.isWhitespace)

/-- Whether the domain part contains a dot that is neither first nor last,
matching the [^\s@]+\.[^\s@]+ suffix of the email regex under backtracking. -/
def hasInnerDot (l : List Char) : Bool :=
  l.enum.any (fun p => p.2 == '.' && 0 < p.1 && p.1 + 1 < l.length)

/-- Match of the regex ^[^\s@]+@[^\s@]+\.[^\s@]+$ used by isValidEmail:
exactly one at-sign (the character classes exclude it), a nonempty
whitespace-free local part before it, and a whitespace-free domain after it
with an inner dot. -/
def emailRegexTest (s : String) : Bool :=
  let l := s.toList
  let lpart := l.takeWhile (fun c => c != '@')
  let dpart := (l.dropWhile (fun c => c != '@')).drop 1
  l.count '@' == 1 && lpart.length > 0 && noWhitespace lpart && noWhitespace dpart &&
  hasInnerDot dpart

/-- isValidEmail from src/utils/validation.ts: falsy-empty guard, regex test
on the trimmed lowercased string, and a 255-character cap on the original. -/
def isValidEmail (email : String) : Bool :=
  email != "" && emailRegexTest (jsToLower (jsTrim email)) && email.length ≤ 255

/-- Prisma cuid() id generation for newly created users, modelled by a fresh
counter-derived opaque id. -/
def newUserId (n : Nat) : String :=
  "new-user-" ++ toString n

/-- prisma.token.create: appends a row with a fresh id. -/
def tokenCreate (db : DB) (token : Jwt) (userId : String) (expires : Nat)
    (type : TokenType) (blacklisted : Bool) : TokenRecord × DB :=
  let tokenDoc : TokenRecord :=
    { id := db.nextTokenId, token := token, type := type, expires := expires,
      blacklisted := blacklisted, userId := userId }
  (tokenDoc, { db with tokens := db.tokens ++ [tokenDoc], nextTokenId := db.nextTokenId + 1 })

/-- prisma.token.findFirst. -/
def tokenFindFirst (db : DB) (p : TokenRecord → Bool) : Option TokenRecord :=
  db.tokens.find? p

/-- prisma.token.delete on the unique id. -/
def tokenDeleteById (db : DB) (id : Nat) : DB :=
  { db with tokens := db.tokens.filter (fun d => d.id != id) }

/-- prisma.token.deleteMany on a predicate. -/
def tokenDeleteMany (db : DB) (p : TokenRecord → Bool) : DB :=
  { db with tokens := db.tokens.filter (fun d => !(p d)) }

/-- isEmailTaken from the user service: findFirst on exact email equality,
optionally excluding one user id. -/
def isEmailTaken (db : DB) (email : String) (excludeUserId : Option String) : Bool :=
  (db.users.find? (fun u =>
    u.email == email &&
    (match excludeUserId with
     | none => true
     | some ex => u.id != ex))).isSome

/-- Input shape of createUser. -/
structure CreateUserData where
  name : String
  email : String
  password : String
  role : Option Role
  isEmailVerified : Option Bool
deriving DecidableEq, Repr

/-- createUser from the user service: email-format check, exact-match
email-taken check, bcrypt hash, then prisma.user.create (role defaults to
USER, isEmailVerified to the Prisma default false).  The TS code returns a
projection without the password; the stored row is returned here since no
claim reads the projection. -/
def createUser (db : DB) (userBody : CreateUserData) : Except SvcError UserRecord × DB :=
  if !(isValidEmail userBody.email) then
    (.error (.apiError 400 "Invalid email format"), db)
  else if isEmailTaken db userBody.email none then
    (.error (.apiError 400 "Email already taken"), db)
  else
    let user : UserRecord :=
      { id := newUserId db.nextUserNum
        email := userBody.email
        name := userBody.name
        password := bcryptHash userBody.password
        role := userBody.role.getD .USER
        isEmailVerified := userBody.isEmailVerified.getD false }
    (.ok user, { db with users := db.users ++ [user], nextUserNum := db.nextUserNum + 1 })

/-- getUserById from the user service: id-format guard then findUnique. -/
def getUserById (db : DB) (id : String) : Except SvcError (Option UserRecord) :=
  if !(isValidUuid id) then .error (.apiError 400 "Invalid user ID format")
  else .ok (db.users.find? (fun u => u.id == id))

/-- getUserByEmail from the user service: findUnique on the lowercased
email. -/
def getUserByEmail (db : DB) (email : String) : Option UserRecord :=
  db.users.find? (fun u => u.email == jsToLower email)

/-- Input shape of updateUserById (absent fields are omitted from the
update). -/
structure UpdateUserData where
  name : Option String
  email : Option String
  password : Option String
  role : Option Role
  isEmailVerified : Option Bool
deriving DecidableEq, Repr

/-- prisma.user.update on the user with the given id: present fields
overwrite, absent fields are kept. -/
def userUpdate (db : DB) (userId : String) (d : UpdateUserData) : DB :=
  { db with users := db.users.map (fun u =>
      if u.id == userId then
        { u with
          name := d.name.getD u.name
          email := d.email.getD u.email
          password := d.password.getD u.password
          role := d.role.getD u.role
          isEmailVerified := d.isEmailVerified.getD u.isEmailVerified }
      else u) }

/-- updateUserById from the user service: id-format guard, existence check,
optional email checks (guarded by JS truthiness, so an empty-string email
skips them), bcrypt hashing of a truthy new password, then the update. -/
def updateUserById (db : DB) (userId : String) (updateBody : UpdateUserData) :
    Except SvcError UserRecord × DB :=
  if !(isValidUuid userId) then (.error (.apiError 400 "Invalid user ID format"), db)
  else
    match getUserById db userId with
    | .error e => (.error e, db)
    | .ok none => (.error (.apiError 404 "User not found"), db)
    | .ok (some _) =>
      let emailTruthy := match updateBody.email with
        | some e => e != ""
        | none => false
      if emailTruthy && !(isValidEmail (updateBody.email.getD "")) then
        (.error (.apiError 400 "Invalid email format"), db)
      else if emailTruthy && isEmailTaken db (updateBody.email.getD "") (some userId) then
        (.error (.apiError 400 "Email already taken"), db)
      else
        let updateData :=
          { updateBody with
            password := updateBody.password.map (fun p => if p == "" then p else bcryptHash p) }
        let db1 := userUpdate db userId updateData
        match db1.users.find? (fun u => u.id == userId) with
        | some u => (.ok u, db1)
        | none => (.error (.genericError "unreachable"), db1)

/-- generateToken from the token service: signs {sub, iat := now, exp, type}
with the configured secret. -/
def generateToken (cfg : JwtConfig) (now : Nat) (userId : String) (expires : Nat)
    (type : TokenType) : Jwt :=
  jwtSign { sub := userId, iat := now, exp := expires, type := type } cfg.secret

/-- saveToken from the token service: prisma.token.create. -/
def saveToken (db : DB) (token : Jwt) (userId : String) (expires : Nat)
    (type : TokenType) (blacklisted : Bool) : TokenRecord × DB :=
  tokenCreate db token userId expires type blacklisted

/-- verifyToken from the token service: jwt.verify, then findFirst on
{token, type, userId := payload.sub, blacklisted := false}; throws
Error(Token not found) when no row matches.  The database is returned
alongside the result to make the absence of mutation provable. -/
def verifyToken (cfg : JwtConfig) (now : Nat) (db : DB) (token : Jwt)
    (type : TokenType) : Except SvcError TokenRecord × DB :=
  match jwtVerifyClaims token cfg.secret now with
  | .error e => (.error (.jwtError e), db)
  | .ok payload =>
    match tokenFindFirst db (fun d =>
        d.token == token && d.type == type && d.userId == payload.sub &&
        d.blacklisted == false) with
    | none => (.error (.genericError "Token not found"), db)
    | some tokenDoc => (.ok tokenDoc, db)

/-- A token together with its absolute expiry, as returned to clients. -/
structure TokenWithExpiry where
  token : Jwt
  expires : Nat
deriving DecidableEq, Repr

/-- The AuthTokens pair returned by generateAuthTokens. -/
structure AuthTokens where
  access : TokenWithExpiry
  refresh : TokenWithExpiry
deriving DecidableEq, Repr

/-- generateAuthTokens from the token service: a short-lived ACCESS token
(not persisted) and a long-lived REFRESH token persisted via saveToken.
dayjs minute/day additions become second arithmetic. -/
def generateAuthTokens (cfg : JwtConfig) (now : Nat) (db : DB) (user : UserRecord) :
    AuthTokens × DB :=
  let accessTokenExpires := now + cfg.accessExpirationMinutes * 60
  let accessToken := generateToken cfg now user.id accessTokenExpires .ACCESS
  let refreshTokenExpires := now + cfg.refreshExpirationDays * 86400
  let refreshToken := generateToken cfg now user.id refreshTokenExpires .REFRESH
  let saved := saveToken db refreshToken user.id refreshTokenExpires .REFRESH false
  ({ access := { token := accessToken, expires := accessTokenExpires }
     refresh := { token := refreshToken, expires := refreshTokenExpires } }, saved.2)

/-- generateResetPasswordToken from the token service: user lookup by email,
then encode and persist a RESET_PASSWORD token. -/
def generateResetPasswordToken (cfg : JwtConfig) (now : Nat) (db : DB) (email : String) :
    Except SvcError Jwt × DB :=
  match getUserByEmail db email with
  | none => (.error (.apiError 404 "No users found with this email"), db)
  | some user =>
    let expires := now + cfg.resetPasswordExpirationMinutes * 60
    let resetPasswordToken := generateToken cfg now user.id expires .RESET_PASSWORD
    let saved := saveToken db resetPasswordToken user.id expires .RESET_PASSWORD false
    (.ok resetPasswordToken, saved.2)

/-- generateVerifyEmailToken from the token service: encode and persist a
VERIFY_EMAIL token for the given user. -/
def generateVerifyEmailToken (cfg : JwtConfig) (now : Nat) (db : DB) (user : UserRecord) :
    Jwt × DB :=
  let expires := now + cfg.verifyEmailExpirationMinutes * 60
  let verifyEmailToken := generateToken cfg now user.id expires .VERIFY_EMAIL
  let saved := saveToken db verifyEmailToken user.id expires .VERIFY_EMAIL false
  (verifyEmailToken, saved.2)

/-- logout from the auth service: findFirst on {token, REFRESH, not
blacklisted}, 404 when absent, else delete by id. -/
def logout (db : DB) (refreshToken : Jwt) : Except SvcError Unit × DB :=
  match tokenFindFirst db (fun d =>
      d.token == refreshToken && d.type == TokenType.REFRESH && d.blacklisted == false) with
  | none => (.error (.apiError 404 "Not found"), db)
  | some refreshTokenDoc => (.ok (), tokenDeleteById db refreshTokenDoc.id)

/-- The try-block body of refreshAuth: verify the old refresh token, resolve
its user, delete the old row, then issue a fresh pair. -/
def refreshAuthInner (cfg : JwtConfig) (now : Nat) (db : DB) (refreshToken : Jwt) :
    Except SvcError AuthTokens × DB :=
  match verifyToken cfg now db refreshToken .REFRESH with
  | (.error e, db1) => (.error e, db1)
  | (.ok refreshTokenDoc, db1) =>
    match getUserById db1 refreshTokenDoc.userId with
    | .error e => (.error e, db1)
    | .ok none => (.error (.genericError ""), db1)
    | .ok (some user) =>
      let db2 := tokenDeleteById db1 refreshTokenDoc.id
      let issued := generateAuthTokens cfg now db2 user
      (.ok issued.1, issued.2)

/-- refreshAuth from the auth service: the try block, with every failure
re-wrapped as ApiError(401, Please authenticate). -/
def refreshAuth (cfg : JwtConfig) (now : Nat) (db : DB) (refreshToken : Jwt) :
    Except SvcError AuthTokens × DB :=
  match refreshAuthInner cfg now db refreshToken with
  | (.error _, dbE) => (.error (.apiError 401 "Please authenticate"), dbE)
  | (.ok v, dbO) => (.ok v, dbO)

/-- The try-block body of resetPassword: verify the RESET_PASSWORD token,
resolve its user, update the password, then deleteMany all RESET_PASSWORD
tokens of that user. -/
def resetPasswordInner (cfg : JwtConfig) (now : Nat) (db : DB)
    (resetPasswordToken : Jwt) (newPassword : String) : Except SvcError Unit × DB :=
  match verifyToken cfg now db resetPasswordToken .RESET_PASSWORD with
  | (.error e, db1) => (.error e, db1)
  | (.ok tokenDoc, db1) =>
    match getUserById db1 tokenDoc.userId with
    | .error e => (.error e, db1)
    | .ok none => (.error (.genericError ""), db1)
    | .ok (some user) =>
      match updateUserById db1 user.id
          { name := none, email := none, password := some newPassword,
            role := none, isEmailVerified := none } with
      | (.error e, db2) => (.error e, db2)
      | (.ok _, db2) =>
        (.ok (), tokenDeleteMany db2 (fun d =>
          d.userId == user.id && d.type == TokenType.RESET_PASSWORD))

/-- resetPassword from the auth service: the try block, with every failure
re-wrapped as ApiError(401, Password reset failed). -/
def resetPassword (cfg : JwtConfig) (now : Nat) (db : DB)
    (resetPasswordToken : Jwt) (newPassword : String) : Except SvcError Unit × DB :=
  match resetPasswordInner cfg now db resetPasswordToken newPassword with
  | (.error _, dbE) => (.error (.apiError 401 "Password reset failed"), dbE)
  | (.ok v, dbO) => (.ok v, dbO)

/-- The try-block body of verifyEmail: verify the VERIFY_EMAIL token,
resolve its user, deleteMany all VERIFY_EMAIL tokens of that user, then mark
the email verified. -/
def verifyEmailInner (cfg : JwtConfig) (now : Nat) (db : DB)
    (verifyEmailToken : Jwt) : Except SvcError Unit × DB :=
  match verifyToken cfg now db verifyEmailToken .VERIFY_EMAIL with
  | (.error e, db1) => (.error e, db1)
  | (.ok tokenDoc, db1) =>
    match getUserById db1 tokenDoc.userId with
    | .error e => (.error e, db1)
    | .ok none => (.error (.genericError ""), db1)
    | .ok (some user) =>
      let db2 := tokenDeleteMany db1 (fun d =>
        d.userId == user.id && d.type == TokenType.VERIFY_EMAIL)
      match updateUserById db2 user.id
          { name := none, email := none, password := none,
            role := none, isEmailVerified := some true } with
      | (.error e, db3) => (.error e, db3)
      | (.ok _, db3) => (.ok (), db3)

/-- verifyEmail from the auth service: the try block, with every failure
re-wrapped as ApiError(401, Email verification failed). -/
def verifyEmail (cfg : JwtConfig) (now : Nat) (db : DB) (verifyEmailToken : Jwt) :
    Except SvcError Unit × DB :=
  match verifyEmailInner cfg now db verifyEmailToken with
  | (.error _, dbE) => (.error (.apiError 401 "Email verification failed"), dbE)
  | (.ok v, dbO) => (.ok v, dbO)

/-- roleRights from src/config/roles.ts. -/
def roleRights (role : Role) : List String :=
  match role with
  | .USER => []
  | .ADMIN => ["getUsers", "manageUsers"]

/-- Outcome of the authorization middleware: resolve with the principal, or
reject with an ApiError(status, message). -/
inductive AuthResult
  | allow (user : UserRecord)
  | deny (statusCode : Nat) (message : String)
deriving DecidableEq, Repr

/-- verifyCallback from src/middlewares/auth.ts.  paramsUserId is
req.params.userId (JS truthiness makes an empty string count as absent). -/
def verifyCallback (requiredRights : List String) (allowSelfAccess : Bool)
    (paramsUserId : Option String) (err : Bool) (info : Bool)
    (user : Option UserRecord) : AuthResult :=
  match user with
  | none => .deny 401 "Please authenticate"
  | some u =>
    if err || info then .deny 401 "Please authenticate"
    else if requiredRights.length == 0 then .allow u
    else if requiredRights.all (fun r => (roleRights u.role).contains r) then .allow u
    else
      let paramGiven := match paramsUserId with
        | some s => s != ""
        | none => false
      if allowSelfAccess && paramGiven then
        let pid := paramsUserId.getD ""
        if !(isValidUuid pid) then .deny 400 "Invalid user ID format"
        else if pid == u.id then .allow u
        else .deny 403 "Insufficient permissions"
      else .deny 403 "Insufficient permissions"

/-- jwtVerify from src/config/passport.ts: reject non-ACCESS payloads, then
resolve the principal with getUserById (whose thrown errors propagate to the
catch, which calls done(error, false)). -/
def jwtVerifyCb (db : DB) (payload : TokenPayload) : Except SvcError (Option UserRecord) :=
  if payload.type != TokenType.ACCESS then .error (.genericError "Invalid token type")
  else getUserById db payload.sub

/-- The passport jwt strategy pipeline feeding verifyCallback: produces the
(err, info, user) triple.  A missing bearer token or a jwt.verify failure
surfaces as info; a jwtVerify throw surfaces as err; an unresolved user as
user = none. -/
def passportAuthenticate (cfg : JwtConfig) (now : Nat) (db : DB) (bearer : Option Jwt) :
    Bool × Bool × Option UserRecord :=
  match bearer with
  | none => (false, true, none)
  | some t =>
    match jwtVerifyClaims t cfg.secret now with
    | .error _ => (false, true, none)
    | .ok payload =>
      match jwtVerifyCb db payload with
      | .error _ => (true, false, none)
      | .ok none => (false, false, none)
      | .ok (some user) => (false, false, some user)

/-- The full authorization decision for one request: passport authentication
followed by verifyCallback. -/
def authorize (cfg : JwtConfig) (now : Nat) (db : DB) (bearer : Option Jwt)
    (requiredRights : List String) (allowSelfAccess : Bool)
    (paramsUserId : Option String) : AuthResult :=
  match passportAuthenticate cfg now db bearer with
  | (err, info, user) => verifyCallback requiredRights allowSelfAccess paramsUserId err info user

/-!
Shared facts about the embedded operations, used by the claim theorems
below.
-/

/-- A successful jwt.verify returns exactly the embedded payload, and only
when the signature matches and the embedded exp is in the future. -/
theorem jwtVerifyClaims_ok {t : Jwt} {s : String} {now : Nat} {p : TokenPayload}
    (h : jwtVerifyClaims t s now = .ok p) :
    p = t.payload ∧ t.signedWith = s ∧ now < t.payload.exp := by
  unfold jwtVerifyClaims at h
  by_cases hs : t.signedWith = s
  · by_cases he : t.payload.exp ≤ now
    · simp [hs, he] at h
    · simp [hs, he] at h
      exact ⟨h.symm, hs, by omega⟩
  · simp [hs] at h

/-- verifyToken returns the database unchanged on every path. -/
theorem verifyToken_snd (cfg : JwtConfig) (now : Nat) (db : DB) (t : Jwt)
    (ty : TokenType) : (verifyToken cfg now db t ty).2 = db := by
  unfold verifyToken
  split
  · rfl
  · split <;> rfl

/-- What a successful verifyToken guarantees about the returned row. -/
theorem verifyToken_ok {cfg : JwtConfig} {now : Nat} {db : DB} {t : Jwt}
    {ty : TokenType} {doc : TokenRecord}
    (h : (verifyToken cfg now db t ty).1 = .ok doc) :
    doc ∈ db.tokens ∧ doc.token = t ∧ doc.type = ty ∧
    doc.userId = t.payload.sub ∧ doc.blacklisted = false ∧
    t.signedWith = cfg.secret ∧ now < t.payload.exp := by
  unfold verifyToken at h
  split at h
  · simp at h
  · rename_i p hj
    split at h
    · simp at h
    · rename_i found hf
      simp at h
      subst h
      obtain ⟨hp, hs, he⟩ := jwtVerifyClaims_ok hj
      subst hp
      have hmem := List.mem_of_find?_eq_some hf
      have hprop := List.find?_some hf
      simp [Bool.and_eq_true, beq_iff_eq] at hprop
      exact ⟨hmem, hprop.1.1.1, hprop.1.1.2, hprop.1.2, hprop.2, hs, he⟩

/-- When jwt verification of the string itself fails, verifyToken fails. -/
theorem verifyToken_jwt_error {cfg : JwtConfig} {now : Nat} {db : DB} {t : Jwt}
    {ty : TokenType} {e : JwtError}
    (h : jwtVerifyClaims t cfg.secret now = .error e) :
    (verifyToken cfg now db t ty).1 = .error (.jwtError e) := by
  unfold verifyToken
  rw [h]

/-- What a successful getUserById guarantees. -/
theorem getUserById_ok_some {db : DB} {id : String} {u : UserRecord}
    (h : getUserById db id = .ok (some u)) :
    u ∈ db.users ∧ u.id = id ∧ isValidUuid id = true := by
  unfold getUserById at h
  by_cases hv : isValidUuid id
  · simp [hv] at h
    exact ⟨List.mem_of_find?_eq_some h,
      by have := List.find?_some h; simpa [beq_iff_eq] using this, hv⟩
  · simp [hv] at h

/-- updateUserById never touches the token table. -/
theorem updateUserById_snd_tokens (db : DB) (userId : String) (body : UpdateUserData) :
    (updateUserById db userId body).2.tokens = db.tokens := by
  unfold updateUserById
  split
  · rfl
  · split
    · rfl
    · rfl
    · split
      · dsimp only
        split
        · rfl
        · split
          · rfl
          · split <;> rfl
      · dsimp only
        split
        · rfl
        · split
          · rfl
          · split <;> rfl

/-- Membership in the table after deleteMany. -/
theorem tokenDeleteMany_mem {db : DB} {p : TokenRecord → Bool} {d : TokenRecord}
    (h : d ∈ (tokenDeleteMany db p).tokens) : d ∈ db.tokens ∧ p d = false := by
  unfold tokenDeleteMany at h
  simp only [List.mem_filter, Bool.not_eq_true'] at h
  exact h

/-!
Concrete example data used by the witnesses and counterexamples.
-/

/-- A concrete configuration with the default TTLs of src/config/config.ts. -/
def exCfg : JwtConfig :=
  { secret := "top-secret", accessExpirationMinutes := 30, refreshExpirationDays := 30,
    resetPasswordExpirationMinutes := 10, verifyEmailExpirationMinutes := 10 }

/-- A concrete Prisma-style CUID user id. -/
def aliceId : String := "c000000000000000000000001"

/-- A concrete regular user. -/
def alice : UserRecord :=
  { id := aliceId, email := "alice@example.com", name := "Alice",
    password := bcryptHash "Password1!", role := .USER, isEmailVerified := true }

/-- A concrete admin user. -/
def adminBob : UserRecord :=
  { id := "c000000000000000000000002", email := "bob@example.com", name := "Bob",
    password := bcryptHash "Password1!", role := .ADMIN, isEmailVerified := true }

/-- A concrete clock reading (unix seconds). -/
def exNow : Nat := 1700000000

/-- A database holding only the two users and no tokens. -/
def exDb0 : DB :=
  { users := [alice, adminBob], tokens := [], nextTokenId := 0, nextUserNum := 0 }

/-!
Claim theorems.
-/

/-- C1: for every valid user, generateAuthTokens returns an access token
that decodes under the configured secret to sub = user.id and type = ACCESS,
persists the refresh token as a new store row with type REFRESH, the user id
as owner and blacklisted = false, and returns both tokens together with the
absolute expiry timestamps now + accessMinutes and now + refreshDays. -/
theorem generateAuthTokens_issues_access_and_persisted_refresh
    (cfg : JwtConfig) (now : Nat) (db : DB) (user : UserRecord)
    (h : 0 < cfg.accessExpirationMinutes) :
    jwtVerifyClaims (generateAuthTokens cfg now db user).1.access.token cfg.secret now =
      .ok { sub := user.id, iat := now, exp := now + cfg.accessExpirationMinutes * 60,
            type := .ACCESS }
    ∧ (∃ r, (generateAuthTokens cfg now db user).2.tokens = db.tokens ++ [r] ∧
        r.token = (generateAuthTokens cfg now db user).1.refresh.token ∧
        r.type = .REFRESH ∧ r.userId = user.id ∧ r.blacklisted = false)
    ∧ (generateAuthTokens cfg now db user).1.access.expires =
        now + cfg.accessExpirationMinutes * 60
    ∧ (generateAuthTokens cfg now db user).1.refresh.expires =
        now + cfg.refreshExpirationDays * 86400 := by
  refine ⟨?_, ⟨_, rfl, rfl, rfl, rfl, rfl⟩, rfl, rfl⟩
  unfold generateAuthTokens generateToken jwtSign jwtVerifyClaims
  simp
  omega

/-- Witness for C1 at a concrete user and configuration. -/
theorem generateAuthTokens_issues_access_and_persisted_refresh_witness :
    jwtVerifyClaims (generateAuthTokens exCfg exNow exDb0 alice).1.access.token
        exCfg.secret exNow =
      .ok { sub := alice.id, iat := exNow,
            exp := exNow + exCfg.accessExpirationMinutes * 60, type := .ACCESS }
    ∧ (∃ r, (generateAuthTokens exCfg exNow exDb0 alice).2.tokens = exDb0.tokens ++ [r] ∧
        r.token = (generateAuthTokens exCfg exNow exDb0 alice).1.refresh.token ∧
        r.type = .REFRESH ∧ r.userId = alice.id ∧ r.blacklisted = false) :=
  ⟨(generateAuthTokens_issues_access_and_persisted_refresh exCfg exNow exDb0 alice
      (by decide)).1,
   (generateAuthTokens_issues_access_and_persisted_refresh exCfg exNow exDb0 alice
      (by decide)).2.1⟩

/-- C5: a token string whose embedded exp is earlier than the verifier clock
never verifies: verifyToken returns an error for every database state,
including states that still hold a matching non-blacklisted row. -/
theorem verifyToken_rejects_expired (cfg : JwtConfig) (now : Nat) (db : DB)
    (t : Jwt) (ty : TokenType) (h : t.payload.exp < now) :
    ∃ e, (verifyToken cfg now db t ty).1 = Except.error e := by
  unfold verifyToken jwtVerifyClaims
  by_cases hs : t.signedWith = cfg.secret
  · simp [hs, Nat.le_of_lt h]
  · simp [hs]

/-- A reset token whose embedded exp lies one minute in the past. -/
def expiredResetTok : Jwt := generateToken exCfg (exNow - 100) aliceId (exNow - 60) .RESET_PASSWORD

/-- A database still holding the matching, non-blacklisted row for the
expired reset token. -/
def dbExpired : DB :=
  { users := [alice],
    tokens := [{ id := 0, token := expiredResetTok, type := .RESET_PASSWORD,
                 expires := exNow - 60, blacklisted := false, userId := aliceId }],
    nextTokenId := 1, nextUserNum := 0 }

/-- Witness for C5: the expired token fails even though its persisted row is
present and not blacklisted. -/
theorem verifyToken_rejects_expired_witness :
    (∃ e, (verifyToken exCfg exNow dbExpired expiredResetTok .RESET_PASSWORD).1 =
      Except.error e)
    ∧ (dbExpired.tokens.any (fun d =>
        d.token == expiredResetTok && d.blacklisted == false)) = true :=
  ⟨verifyToken_rejects_expired exCfg exNow dbExpired expiredResetTok .RESET_PASSWORD
      (by decide),
   by decide⟩

/-- C6: verification alone never mutates state: for every token string and
expected kind, verifyToken returns the database exactly as it received it,
whether it succeeds or fails. -/
theorem verifyToken_never_mutates (cfg : JwtConfig) (now : Nat) (db : DB)
    (t : Jwt) (ty : TokenType) : (verifyToken cfg now db t ty).2 = db :=
  verifyToken_snd cfg now db t ty

/-- C8: when verification of the reset-password token fails (expired, bad
signature, absent or blacklisted row), resetPassword throws
ApiError(401, Password reset failed) and returns the database unchanged, so
no stored password hash is touched. -/
theorem resetPassword_failure_leaves_db_unchanged (cfg : JwtConfig) (now : Nat)
    (db : DB) (t : Jwt) (pw : String)
    (h : ∃ e, (verifyToken cfg now db t .RESET_PASSWORD).1 = Except.error e) :
    resetPassword cfg now db t pw =
      (.error (.apiError 401 "Password reset failed"), db) := by
  obtain ⟨e, he⟩ := h
  have hsnd := verifyToken_snd cfg now db t .RESET_PASSWORD
  have hpair : verifyToken cfg now db t .RESET_PASSWORD = (Except.error e, db) :=
    Prod.ext_iff.mpr ⟨he, hsnd⟩
  unfold resetPassword resetPasswordInner
  rw [hpair]

/-- Witness for C8: the already-expired reset token from the spec scenario
leaves the database (hence the stored password hash) unchanged. -/
theorem resetPassword_failure_leaves_db_unchanged_witness :
    resetPassword exCfg exNow dbExpired expiredResetTok "NewPass1!" =
      (.error (.apiError 401 "Password reset failed"), dbExpired) :=
  resetPassword_failure_leaves_db_unchanged exCfg exNow dbExpired expiredResetTok
    "NewPass1!" ⟨.jwtError .tokenExpired, rfl⟩

/-- A successful jwt.verify given matching signature and a future exp. -/
theorem jwtVerifyClaims_ok_of {t : Jwt} {s : String} {now : Nat}
    (hs : t.signedWith = s) (he : now < t.payload.exp) :
    jwtVerifyClaims t s now = .ok t.payload := by
  unfold jwtVerifyClaims
  rw [if_neg (by simp [hs]), if_neg (by omega)]

/-- verifyToken fails with the Token-not-found error when the claims check
passes but no store row matches. -/
theorem verifyToken_eq_not_found {cfg : JwtConfig} {now : Nat} {db : DB} {t : Jwt}
    {ty : TokenType}
    (hc : jwtVerifyClaims t cfg.secret now = .ok t.payload)
    (hn : tokenFindFirst db (fun d =>
        d.token == t && d.type == ty && d.userId == t.payload.sub &&
        d.blacklisted == false) = none) :
    (verifyToken cfg now db t ty).1 = .error (.genericError "Token not found") := by
  unfold verifyToken
  simp only [hc]
  simp only [hn]

/-- C2 (amended): refreshAuth fails with ApiError(401, Please authenticate)
and leaves the store unchanged whenever the old refresh token fails
verification (invalid signature, expired, blacklisted or absent row); on
success it deletes the old row before appending the newly issued refresh
row, and the old refresh token string no longer verifies provided the old
string was persisted only once and the newly issued refresh string differs
from it (jsonwebtoken signing is deterministic, so a rotation in the very
second of issuance reproduces the identical string, see the
counterexample). -/
theorem refreshAuth_rotation_behaviour (cfg : JwtConfig) (now : Nat) (db : DB) (t : Jwt) :
    ((∃ e, (verifyToken cfg now db t .REFRESH).1 = Except.error e) →
      refreshAuth cfg now db t = (.error (.apiError 401 "Please authenticate"), db))
    ∧ (∀ tokens dbA, refreshAuth cfg now db t = (.ok tokens, dbA) →
        ∃ doc newRec,
          (verifyToken cfg now db t .REFRESH).1 = .ok doc ∧
          dbA.tokens = (db.tokens.filter (fun d => d.id != doc.id)) ++ [newRec] ∧
          newRec.token = tokens.refresh.token ∧
          ((∀ d1 d2, d1 ∈ db.tokens → d2 ∈ db.tokens → d1.token = t → d2.token = t →
              d1 = d2) →
            tokens.refresh.token ≠ t →
            ∃ e, (verifyToken cfg now dbA t .REFRESH).1 = Except.error e)) := by
  constructor
  · rintro ⟨e, he⟩
    have hsnd := verifyToken_snd cfg now db t .REFRESH
    have hpair : verifyToken cfg now db t .REFRESH = (Except.error e, db) :=
      Prod.ext_iff.mpr ⟨he, hsnd⟩
    unfold refreshAuth refreshAuthInner
    rw [hpair]
  · intro tokens dbA h
    unfold refreshAuth at h
    rcases hInner : refreshAuthInner cfg now db t with ⟨res, dbI⟩
    rw [hInner] at h
    cases res with
    | error e => simp at h
    | ok v =>
      simp only [Prod.mk.injEq, Except.ok.injEq] at h
      obtain ⟨hv, hdbI⟩ := h
      subst hv
      subst hdbI
      unfold refreshAuthInner at hInner
      rcases hV : verifyToken cfg now db t .REFRESH with ⟨vres, dbV⟩
      have hdbV : dbV = db := by
        have hts := verifyToken_snd cfg now db t .REFRESH
        rw [hV] at hts
        exact hts
      rw [hdbV] at hV
      rw [hV] at hInner
      cases vres with
      | error e => simp at hInner
      | ok doc =>
        dsimp only at hInner
        have hVfst : (verifyToken cfg now db t .REFRESH).1 = .ok doc := by rw [hV]
        obtain ⟨hdocMem, hdocTok, hdocTy, hdocUid, hdocBl, hsig, hexp⟩ :=
          verifyToken_ok hVfst
        cases hU : getUserById db doc.userId with
        | error e => rw [hU] at hInner; simp at hInner
        | ok o =>
          cases o with
          | none => rw [hU] at hInner; simp at hInner
          | some user =>
            rw [hU] at hInner
            dsimp only at hInner
            simp only [Prod.mk.injEq, Except.ok.injEq] at hInner
            obtain ⟨htok, hdbA⟩ := hInner
            refine ⟨doc,
              { id := (tokenDeleteById db doc.id).nextTokenId,
                token := generateToken cfg now user.id
                  (now + cfg.refreshExpirationDays * 86400) .REFRESH,
                type := .REFRESH,
                expires := now + cfg.refreshExpirationDays * 86400,
                blacklisted := false, userId := user.id }, rfl, ?_, ?_, ?_⟩
            · rw [← hdbA]
              rfl
            · rw [← htok]
              rfl
            · intro huniq hneq
              refine ⟨.genericError "Token not found",
                verifyToken_eq_not_found (jwtVerifyClaims_ok_of hsig hexp) ?_⟩
              unfold tokenFindFirst
              rw [List.find?_eq_none]
              intro x hx
              rw [← hdbA] at hx
              simp only [generateAuthTokens, generateToken, jwtSign, saveToken,
                tokenCreate, tokenDeleteById, List.mem_append, List.mem_filter,
                List.mem_singleton] at hx
              rcases hx with ⟨hxdb, hxid⟩ | hxnew
              · intro hp
                simp only [Bool.and_eq_true, beq_iff_eq] at hp
                have hxt : x.token = t := hp.1.1.1
                have : x = doc := huniq x doc hxdb hdocMem hxt hdocTok
                subst this
                simp at hxid
              · intro hp
                simp only [Bool.and_eq_true, beq_iff_eq] at hp
                have hxt : x.token = t := hp.1.1.1
                rw [hxnew] at hxt
                apply hneq
                have hgen : (generateAuthTokens cfg now (tokenDeleteById db doc.id)
                    user).1.refresh.token = t := hxt
                rw [htok] at hgen
                exact hgen

/-- C2 counterexample data: the database right after a login at time exNow
(generateAuthTokens on a store with no tokens). -/
def dbAfterLogin : DB := (generateAuthTokens exCfg exNow exDb0 alice).2

/-- The refresh token issued by that login. -/
def loginRefreshTok : Jwt := (generateAuthTokens exCfg exNow exDb0 alice).1.refresh.token

/-- C2 counterexample: rotating the refresh token in the very second it was
issued succeeds, yet the old refresh token string still verifies afterwards,
because deterministic jwt signing re-creates the byte-identical refresh
string and persists it as the new row.  This refutes the unconditional claim
that after a successful rotation the old refresh token string no longer
verifies. -/
theorem refreshAuth_old_token_still_verifies_counterexample :
    ((refreshAuth exCfg exNow dbAfterLogin loginRefreshTok).1).isOk = true
    ∧ ((verifyToken exCfg exNow (refreshAuth exCfg exNow dbAfterLogin loginRefreshTok).2
        loginRefreshTok .REFRESH).1).isOk = true := by
  constructor
  · rfl
  · rfl

/-- A refresh token whose signature does not match the configured secret. -/
def badSigTok : Jwt :=
  { payload := { sub := aliceId, iat := exNow, exp := exNow + 100, type := .REFRESH },
    signedWith := "wrong-secret" }

/-- A refresh token issued 1000 seconds before exNow. -/
def earlierRefreshTok : Jwt := generateToken exCfg (exNow - 1000) aliceId (exNow + 5000) .REFRESH

/-- A database holding the earlier refresh token as its only token row. -/
def dbRot : DB :=
  { users := [alice],
    tokens := [{ id := 0, token := earlierRefreshTok, type := .REFRESH,
                 expires := exNow + 5000, blacklisted := false, userId := aliceId }],
    nextTokenId := 1, nextUserNum := 0 }

/-- The pair issued by rotating the earlier refresh token at exNow. -/
def rotPair : AuthTokens := (generateAuthTokens exCfg exNow (tokenDeleteById dbRot 0) alice).1

/-- The database after that rotation. -/
def dbRotAfter : DB := (refreshAuth exCfg exNow dbRot earlierRefreshTok).2

/-- Witness for C2 at concrete inputs: an invalid-signature token makes
refreshAuth fail with 401 and an unchanged store, and after a rotation one
second later than issuance the old string no longer verifies. -/
theorem refreshAuth_rotation_behaviour_witness :
    refreshAuth exCfg exNow exDb0 badSigTok =
      (.error (.apiError 401 "Please authenticate"), exDb0)
    ∧ (∃ e, (verifyToken exCfg exNow dbRotAfter earlierRefreshTok .REFRESH).1 =
        Except.error e) := by
  constructor
  · exact (refreshAuth_rotation_behaviour exCfg exNow exDb0 badSigTok).1
      ⟨.jwtError .invalidSignature, rfl⟩
  · have hrot : refreshAuth exCfg exNow dbRot earlierRefreshTok =
        (.ok rotPair, dbRotAfter) := rfl
    obtain ⟨doc, newRec, hdoc, htoks, hnewtok, hfinal⟩ :=
      (refreshAuth_rotation_behaviour exCfg exNow dbRot earlierRefreshTok).2
        rotPair dbRotAfter hrot
    have huniq : ∀ d1 d2, d1 ∈ dbRot.tokens → d2 ∈ dbRot.tokens →
        d1.token = earlierRefreshTok → d2.token = earlierRefreshTok → d1 = d2 := by
      intro d1 d2 h1 h2 hta htb
      simp [dbRot] at h1 h2
      rw [h1, h2]
    exact hfinal huniq (by decide)

/-- C3 counterexample: with self-access enabled, a USER principal lacking
the required right who supplies a selfAccessParam that is not a valid id is
denied with ApiError(400, Invalid user ID format) — not with
InsufficientPermissions, as the claim asserts for every remaining case. -/
theorem verifyCallback_invalid_param_counterexample :
    verifyCallback ["manageUsers"] true (some "not-a-uuid") false false (some alice) =
      .deny 400 "Invalid user ID format"
    ∧ verifyCallback ["manageUsers"] true (some "not-a-uuid") false false (some alice) ≠
      .deny 403 "Insufficient permissions" := by
  constructor
  · rfl
  · decide

/-- C3 (amended): for an authenticated principal, an empty required set
allows; a role whose rights cover the required set allows; otherwise, when
self-access is enabled and a truthy selfAccessParam is supplied, a valid id
equal to the principal id allows, an invalid id is rejected with
ApiError(400, Invalid user ID format), and a valid but different id is
denied with InsufficientPermissions; in every remaining case the denial is
InsufficientPermissions.  (An ADMIN requiring manageUsers is allowed and a
USER is denied via the covering-rights conjunct, since roleRights ADMIN
contains manageUsers and roleRights USER is empty.) -/
theorem verifyCallback_decision (requiredRights : List String) (allowSelfAccess : Bool)
    (paramsUserId : Option String) (u : UserRecord) :
    (requiredRights = [] →
      verifyCallback requiredRights allowSelfAccess paramsUserId false false (some u) =
        .allow u)
    ∧ (requiredRights.all (fun r => (roleRights u.role).contains r) = true →
      verifyCallback requiredRights allowSelfAccess paramsUserId false false (some u) =
        .allow u)
    ∧ (requiredRights.all (fun r => (roleRights u.role).contains r) = false →
        (∀ pid, allowSelfAccess = true → paramsUserId = some pid → pid ≠ "" →
            isValidUuid pid = true → pid = u.id →
          verifyCallback requiredRights allowSelfAccess paramsUserId false false (some u) =
            .allow u)
        ∧ (∀ pid, allowSelfAccess = true → paramsUserId = some pid → pid ≠ "" →
            isValidUuid pid = false →
          verifyCallback requiredRights allowSelfAccess paramsUserId false false (some u) =
            .deny 400 "Invalid user ID format")
        ∧ (∀ pid, allowSelfAccess = true → paramsUserId = some pid → pid ≠ "" →
            isValidUuid pid = true → pid ≠ u.id →
          verifyCallback requiredRights allowSelfAccess paramsUserId false false (some u) =
            .deny 403 "Insufficient permissions")
        ∧ ((allowSelfAccess = false ∨ paramsUserId = none ∨ paramsUserId = some "") →
          verifyCallback requiredRights allowSelfAccess paramsUserId false false (some u) =
            .deny 403 "Insufficient permissions")) := by
  have hbody : ∀ (rr : List String) (asa : Bool) (pu : Option String) (uu : UserRecord),
      verifyCallback rr asa pu false false (some uu) =
        (if rr.length == 0 then AuthResult.allow uu
         else if rr.all (fun r => (roleRights uu.role).contains r) then AuthResult.allow uu
         else if asa && (match pu with | some s => s != "" | none => false) then
           (if !(isValidUuid (pu.getD "")) then AuthResult.deny 400 "Invalid user ID format"
            else if pu.getD "" == uu.id then AuthResult.allow uu
            else AuthResult.deny 403 "Insufficient permissions")
         else AuthResult.deny 403 "Insufficient permissions") := by
    intro rr asa pu uu
    rfl
  refine ⟨?_, ?_, ?_⟩
  · intro h
    subst h
    rfl
  · intro hall
    by_cases hnil : requiredRights = []
    · subst hnil
      rfl
    · have hlen : (requiredRights.length == 0) = false := by
        simp [List.length_eq_zero, hnil]
      rw [hbody, hlen, hall]
      simp
  · intro hall
    have hlen : (requiredRights.length == 0) = false := by
      have hnil : requiredRights ≠ [] := by
        intro h
        subst h
        simp at hall
      simp [List.length_eq_zero, hnil]
    refine ⟨?_, ?_, ?_, ?_⟩
    · intro pid hself hpid hpne hvalid heq
      subst hself
      subst hpid
      subst heq
      rw [hbody, hlen, hall]
      simp [hpne, hvalid]
    · intro pid hself hpid hpne hvalid
      subst hself
      subst hpid
      rw [hbody, hlen, hall]
      simp [hpne, hvalid]
    · intro pid hself hpid hpne hvalid hne
      subst hself
      subst hpid
      rw [hbody, hlen, hall]
      simp [hpne, hvalid, hne]
    · intro hrest
      rcases hrest with h | h | h
      · subst h
        rw [hbody, hlen, hall]
        simp
      · subst h
        rw [hbody, hlen, hall]
        simp
      · subst h
        rw [hbody, hlen, hall]
        simp

/-- Witness for C3 at concrete principals: the admin is allowed the
manageUsers requirement, the user is allowed by self-access on the own id,
and the user without self-access is denied with 403. -/
theorem verifyCallback_decision_witness :
    verifyCallback ["manageUsers"] false none false false (some adminBob) = .allow adminBob
    ∧ verifyCallback ["manageUsers"] true (some aliceId) false false (some alice) =
        .allow alice
    ∧ verifyCallback ["manageUsers"] false none false false (some alice) =
        .deny 403 "Insufficient permissions" := by
  refine ⟨?_, ?_, ?_⟩
  · exact (verifyCallback_decision ["manageUsers"] false none adminBob).2.1 (by decide)
  · exact ((verifyCallback_decision ["manageUsers"] true (some aliceId) alice).2.2
      (by decide)).1 aliceId rfl rfl (by decide) (by decide) rfl
  · exact ((verifyCallback_decision ["manageUsers"] false none alice).2.2
      (by decide)).2.2.2 (Or.inl rfl)

/-- Invariant of the token store maintained by the lifecycle manager: every
persisted row stores the same type that its token string embeds (all
saveToken call sites pass the type they encoded). -/
def storeTypesConsistent (db : DB) : Prop :=
  ∀ d ∈ db.tokens, d.token.payload.type = d.type

/-- Issuing an auth pair preserves the store-type invariant. -/
theorem storeTypesConsistent_generateAuthTokens (cfg : JwtConfig) (now : Nat)
    (db : DB) (user : UserRecord) (h : storeTypesConsistent db) :
    storeTypesConsistent (generateAuthTokens cfg now db user).2 := by
  intro d hd
  simp only [generateAuthTokens, saveToken, tokenCreate, generateToken, jwtSign,
    List.mem_append, List.mem_singleton] at hd
  rcases hd with hd | hd
  · exact h d hd
  · subst hd
    rfl

/-- Issuing a reset-password token preserves the store-type invariant. -/
theorem storeTypesConsistent_generateResetPasswordToken (cfg : JwtConfig) (now : Nat)
    (db : DB) (email : String) (h : storeTypesConsistent db) :
    storeTypesConsistent (generateResetPasswordToken cfg now db email).2 := by
  unfold generateResetPasswordToken
  cases hu : getUserByEmail db email with
  | none => exact h
  | some user =>
    intro d hd
    simp only [saveToken, tokenCreate, generateToken, jwtSign,
      List.mem_append, List.mem_singleton] at hd
    rcases hd with hd | hd
    · exact h d hd
    · subst hd
      rfl

/-- Issuing a verify-email token preserves the store-type invariant. -/
theorem storeTypesConsistent_generateVerifyEmailToken (cfg : JwtConfig) (now : Nat)
    (db : DB) (user : UserRecord) (h : storeTypesConsistent db) :
    storeTypesConsistent (generateVerifyEmailToken cfg now db user).2 := by
  intro d hd
  simp only [generateVerifyEmailToken, saveToken, tokenCreate, generateToken, jwtSign,
    List.mem_append, List.mem_singleton] at hd
  rcases hd with hd | hd
  · exact h d hd
  · subst hd
    rfl

/-- Deleting rows (logout, rotation, consumption) preserves the store-type
invariant: any filter of the token table keeps it. -/
theorem storeTypesConsistent_filter (db : DB) (p : TokenRecord → Bool)
    (h : storeTypesConsistent db) :
    storeTypesConsistent { db with tokens := db.tokens.filter p } := by
  intro d hd
  exact h d (List.mem_filter.mp hd).1

/-- C4: type confusion is never permitted.  In a store satisfying the
lifecycle invariant, a token whose embedded type is ACCESS always fails
verifyToken against any other expected kind (with the Token-not-found error
whenever the string itself is valid and unexpired); and any bearer token
whose embedded type is not ACCESS is denied by the authorization engine with
401 Please authenticate. -/
theorem token_type_confusion_rejected (cfg : JwtConfig) (now : Nat) (db : DB)
    (t : Jwt) (k : TokenType) :
    (storeTypesConsistent db → t.payload.type = .ACCESS → k ≠ .ACCESS →
      (∃ e, (verifyToken cfg now db t k).1 = Except.error e) ∧
      (t.signedWith = cfg.secret → now < t.payload.exp →
        (verifyToken cfg now db t k).1 = .error (.genericError "Token not found")))
    ∧ (∀ req asa pid, t.payload.type ≠ .ACCESS →
        authorize cfg now db (some t) req asa pid = .deny 401 "Please authenticate") := by
  constructor
  · intro hcons htype hk
    have hnone : tokenFindFirst db (fun d =>
        d.token == t && d.type == k && d.userId == t.payload.sub &&
        d.blacklisted == false) = none := by
      unfold tokenFindFirst
      rw [List.find?_eq_none]
      intro x hx hp
      simp only [Bool.and_eq_true, beq_iff_eq] at hp
      have hxt : x.token = t := hp.1.1.1
      have hxk : x.type = k := hp.1.1.2
      have := hcons x hx
      rw [hxt, htype, hxk] at this
      exact hk this.symm
    constructor
    · cases hj : jwtVerifyClaims t cfg.secret now with
      | error e => exact ⟨.jwtError e, verifyToken_jwt_error hj⟩
      | ok p =>
        obtain ⟨hp, hs, he⟩ := jwtVerifyClaims_ok hj
        subst hp
        exact ⟨.genericError "Token not found", verifyToken_eq_not_found hj hnone⟩
    · intro hs he
      exact verifyToken_eq_not_found (jwtVerifyClaims_ok_of hs he) hnone
  · intro req asa pid htype
    unfold authorize passportAuthenticate
    dsimp only
    cases hj : jwtVerifyClaims t cfg.secret now with
    | error e => rfl
    | ok p =>
      obtain ⟨hp, hs, he⟩ := jwtVerifyClaims_ok hj
      subst hp
      have hne : (t.payload.type != TokenType.ACCESS) = true := bne_iff_ne.mpr htype
      dsimp only [jwtVerifyCb]
      rw [hne]
      rfl

/-- The access token issued by the login at exNow. -/
def loginAccessTok : Jwt := (generateAuthTokens exCfg exNow exDb0 alice).1.access.token

/-- Witness for C4: the freshly issued access token fails verifyToken when a
REFRESH kind is expected, and the freshly issued refresh token is denied as
a bearer credential. -/
theorem token_type_confusion_rejected_witness :
    (verifyToken exCfg exNow dbAfterLogin loginAccessTok .REFRESH).1 =
      .error (.genericError "Token not found")
    ∧ authorize exCfg exNow dbAfterLogin (some loginRefreshTok) [] false none =
      .deny 401 "Please authenticate" := by
  constructor
  · exact ((token_type_confusion_rejected exCfg exNow dbAfterLogin loginAccessTok
      .REFRESH).1 (by unfold storeTypesConsistent; decide) (by decide) (by decide)).2
      (by decide) (by decide)
  · exact (token_type_confusion_rejected exCfg exNow dbAfterLogin loginRefreshTok
      .REFRESH).2 [] false none (by decide)

/-- C7: successful consumption purges, issuance never does.  A successful
resetPassword leaves zero RESET_PASSWORD tokens of the consumed token owner
in the store, a successful verifyEmail leaves zero VERIFY_EMAIL tokens of
that owner, while generateAuthTokens, generateResetPasswordToken and
generateVerifyEmailToken each only append one new row to the token table and
delete nothing. -/
theorem consumption_purges_issuance_preserves :
    (∀ (cfg : JwtConfig) (now : Nat) (db : DB) (t : Jwt) (pw : String) (dbA : DB),
        resetPassword cfg now db t pw = (.ok (), dbA) →
        ∀ d ∈ dbA.tokens, ¬(d.userId = t.payload.sub ∧ d.type = TokenType.RESET_PASSWORD))
    ∧ (∀ (cfg : JwtConfig) (now : Nat) (db : DB) (t : Jwt) (dbA : DB),
        verifyEmail cfg now db t = (.ok (), dbA) →
        ∀ d ∈ dbA.tokens, ¬(d.userId = t.payload.sub ∧ d.type = TokenType.VERIFY_EMAIL))
    ∧ (∀ (cfg : JwtConfig) (now : Nat) (db : DB) (user : UserRecord),
        ∃ r, (generateAuthTokens cfg now db user).2.tokens = db.tokens ++ [r])
    ∧ (∀ (cfg : JwtConfig) (now : Nat) (db : DB) (email : String) (tok : Jwt) (dbA : DB),
        generateResetPasswordToken cfg now db email = (.ok tok, dbA) →
        ∃ r, dbA.tokens = db.tokens ++ [r])
    ∧ (∀ (cfg : JwtConfig) (now : Nat) (db : DB) (user : UserRecord),
        ∃ r, (generateVerifyEmailToken cfg now db user).2.tokens = db.tokens ++ [r]) := by
  refine ⟨?_, ?_, ?_, ?_, ?_⟩
  · intro cfg now db t pw dbA h d hd hcontra
    unfold resetPassword at h
    rcases hI : resetPasswordInner cfg now db t pw with ⟨res, dbI⟩
    rw [hI] at h
    cases res with
    | error e => simp at h
    | ok v =>
      simp only [Prod.mk.injEq, Except.ok.injEq] at h
      obtain ⟨hv, hdbI⟩ := h
      subst hdbI
      unfold resetPasswordInner at hI
      rcases hV : verifyToken cfg now db t .RESET_PASSWORD with ⟨vres, dbV⟩
      have hdbV : dbV = db := by
        have hts := verifyToken_snd cfg now db t .RESET_PASSWORD
        rw [hV] at hts
        exact hts
      rw [hdbV] at hV
      rw [hV] at hI
      cases vres with
      | error e => simp at hI
      | ok doc =>
        dsimp only at hI
        have hVfst : (verifyToken cfg now db t .RESET_PASSWORD).1 = .ok doc := by rw [hV]
        obtain ⟨hdocMem, hdocTok, hdocTy, hdocUid, hdocBl, hsig, hexp⟩ :=
          verifyToken_ok hVfst
        cases hU : getUserById db doc.userId with
        | error e => rw [hU] at hI; simp at hI
        | ok o =>
          cases o with
          | none => rw [hU] at hI; simp at hI
          | some user =>
            rw [hU] at hI
            dsimp only at hI
            obtain ⟨huMem, huId, hvalid⟩ := getUserById_ok_some hU
            rcases hUp : updateUserById db user.id
                { name := none, email := none, password := some pw,
                  role := none, isEmailVerified := none } with ⟨ures, db2⟩
            rw [hUp] at hI
            cases ures with
            | error e => simp at hI
            | ok uu =>
              simp only [Prod.mk.injEq, Except.ok.injEq] at hI
              obtain ⟨hvv, hdbDel⟩ := hI
              rw [← hdbDel] at hd
              obtain ⟨hdmem, hdp⟩ := tokenDeleteMany_mem hd
              have huser : user.id = t.payload.sub := by rw [huId, hdocUid]
              rw [hcontra.1, hcontra.2, huser] at hdp
              simp at hdp
  · intro cfg now db t dbA h d hd hcontra
    unfold verifyEmail at h
    rcases hI : verifyEmailInner cfg now db t with ⟨res, dbI⟩
    rw [hI] at h
    cases res with
    | error e => simp at h
    | ok v =>
      simp only [Prod.mk.injEq, Except.ok.injEq] at h
      obtain ⟨hv, hdbI⟩ := h
      subst hdbI
      unfold verifyEmailInner at hI
      rcases hV : verifyToken cfg now db t .VERIFY_EMAIL with ⟨vres, dbV⟩
      have hdbV : dbV = db := by
        have hts := verifyToken_snd cfg now db t .VERIFY_EMAIL
        rw [hV] at hts
        exact hts
      rw [hdbV] at hV
      rw [hV] at hI
      cases vres with
      | error e => simp at hI
      | ok doc =>
        dsimp only at hI
        have hVfst : (verifyToken cfg now db t .VERIFY_EMAIL).1 = .ok doc := by rw [hV]
        obtain ⟨hdocMem, hdocTok, hdocTy, hdocUid, hdocBl, hsig, hexp⟩ :=
          verifyToken_ok hVfst
        cases hU : getUserById db doc.userId with
        | error e => rw [hU] at hI; simp at hI
        | ok o =>
          cases o with
          | none => rw [hU] at hI; simp at hI
          | some user =>
            rw [hU] at hI
            dsimp only at hI
            obtain ⟨huMem, huId, hvalid⟩ := getUserById_ok_some hU
            rcases hUp : updateUserById
                (tokenDeleteMany db (fun r =>
                  r.userId == user.id && r.type == TokenType.VERIFY_EMAIL)) user.id
                { name := none, email := none, password := none,
                  role := none, isEmailVerified := some true } with ⟨ures, db3⟩
            rw [hUp] at hI
            cases ures with
            | error e => simp at hI
            | ok uu =>
              simp only [Prod.mk.injEq, Except.ok.injEq] at hI
              obtain ⟨hvv, hdb3⟩ := hI
              have htok3 := updateUserById_snd_tokens
                (tokenDeleteMany db (fun r =>
                  r.userId == user.id && r.type == TokenType.VERIFY_EMAIL)) user.id
                { name := none, email := none, password := none,
                  role := none, isEmailVerified := some true }
              rw [hUp] at htok3
              rw [← hdb3] at hd
              rw [htok3] at hd
              obtain ⟨hdmem, hdp⟩ := tokenDeleteMany_mem hd
              have huser : user.id = t.payload.sub := by rw [huId, hdocUid]
              rw [hcontra.1, hcontra.2, huser] at hdp
              simp at hdp
  · intro cfg now db user
    exact ⟨_, rfl⟩
  · intro cfg now db email tok dbA h
    unfold generateResetPasswordToken at h
    cases hu : getUserByEmail db email with
    | none => rw [hu] at h; simp at h
    | some user =>
      rw [hu] at h
      dsimp only at h
      simp only [Prod.mk.injEq, Except.ok.injEq] at h
      obtain ⟨htok, hdbA⟩ := h
      refine ⟨{ id := db.nextTokenId,
                token := generateToken cfg now user.id
                  (now + cfg.resetPasswordExpirationMinutes * 60) .RESET_PASSWORD,
                type := .RESET_PASSWORD,
                expires := now + cfg.resetPasswordExpirationMinutes * 60,
                blacklisted := false, userId := user.id }, ?_⟩
      rw [← hdbA]
      rfl
  · intro cfg now db user
    exact ⟨_, rfl⟩

/-- A valid, unexpired reset token for alice. -/
def resetTok : Jwt := generateToken exCfg (exNow - 100) aliceId (exNow + 500) .RESET_PASSWORD

/-- A second outstanding reset token for alice. -/
def resetTok2 : Jwt := generateToken exCfg (exNow - 200) aliceId (exNow + 400) .RESET_PASSWORD

/-- A database with two outstanding reset tokens and one refresh token. -/
def dbResets : DB :=
  { users := [alice],
    tokens := [{ id := 0, token := resetTok, type := .RESET_PASSWORD,
                 expires := exNow + 500, blacklisted := false, userId := aliceId },
               { id := 1, token := resetTok2, type := .RESET_PASSWORD,
                 expires := exNow + 400, blacklisted := false, userId := aliceId },
               { id := 2, token := earlierRefreshTok, type := .REFRESH,
                 expires := exNow + 5000, blacklisted := false, userId := aliceId }],
    nextTokenId := 3, nextUserNum := 0 }

/-- The database after consuming the first reset token. -/
def dbResetsAfter : DB := (resetPassword exCfg exNow dbResets resetTok "NewPass1!").2

/-- Witness for C7: after the successful reset no RESET_PASSWORD token of
alice remains, and issuing a verify-email token only appends. -/
theorem consumption_purges_issuance_preserves_witness :
    (∀ d ∈ dbResetsAfter.tokens,
      ¬(d.userId = resetTok.payload.sub ∧ d.type = TokenType.RESET_PASSWORD))
    ∧ (∃ r, (generateVerifyEmailToken exCfg exNow dbResets alice).2.tokens =
        dbResets.tokens ++ [r]) :=
  ⟨consumption_purges_issuance_preserves.1 exCfg exNow dbResets resetTok "NewPass1!"
      dbResetsAfter rfl,
   consumption_purges_issuance_preserves.2.2.2.2 exCfg exNow dbResets alice⟩

/-- A registration request whose email differs from the stored
alice@example.com only in letter case. -/
def mixedCaseData : CreateUserData :=
  { name := "Alice2", email := "Alice@example.com", password := "Password1!",
    role := none, isEmailVerified := none }

/-- A registration request with the identical email string. -/
def exactDupData : CreateUserData :=
  { name := "Alice2", email := "alice@example.com", password := "Password1!",
    role := none, isEmailVerified := none }

/-- C9 counterexample: although Alice@example.com equals the stored
alice@example.com under case-insensitive comparison, createUser succeeds and
the store then holds two users whose emails differ only in case — refuting
both the case-insensitive uniqueness invariant and the claimed failure of
createUser. -/
theorem createUser_case_insensitive_counterexample :
    jsToLower "Alice@example.com" = jsToLower "alice@example.com"
    ∧ ((createUser exDb0 mixedCaseData).1).isOk = true
    ∧ ((createUser exDb0 mixedCaseData).2.users.map (fun u => u.email)) =
        ["alice@example.com", "bob@example.com", "Alice@example.com"] := by
  refine ⟨by decide, by decide, by decide⟩

/-- C9 (amended): the uniqueness check in createUser is exact string
equality, not case-insensitive: with a well-formed email, createUser fails
with ApiError(400, Email already taken) precisely when some stored user has
the identical email string, and otherwise succeeds and appends the new user
with that email.  Only getUserByEmail lowercases its argument; the store may
hold two users whose emails differ only in case. -/
theorem createUser_exact_email_uniqueness (db : DB) (data : CreateUserData)
    (hvalid : isValidEmail data.email = true) :
    ((∃ u ∈ db.users, u.email = data.email) →
      createUser db data = (.error (.apiError 400 "Email already taken"), db))
    ∧ ((∀ u ∈ db.users, u.email ≠ data.email) →
      (createUser db data).1 =
        .ok { id := newUserId db.nextUserNum, email := data.email, name := data.name,
              password := bcryptHash data.password, role := data.role.getD .USER,
              isEmailVerified := data.isEmailVerified.getD false }
      ∧ (createUser db data).2.users = db.users ++
        [{ id := newUserId db.nextUserNum, email := data.email, name := data.name,
           password := bcryptHash data.password, role := data.role.getD .USER,
           isEmailVerified := data.isEmailVerified.getD false }]) := by
  have hiff : isEmailTaken db data.email none = true ↔
      ∃ u ∈ db.users, u.email = data.email := by
    unfold isEmailTaken
    rw [List.find?_isSome]
    constructor
    · rintro ⟨u, hu, hp⟩
      simp only [Bool.and_eq_true, beq_iff_eq] at hp
      exact ⟨u, hu, hp.1⟩
    · rintro ⟨u, hu, he⟩
      refine ⟨u, hu, ?_⟩
      simp [he]
  constructor
  · intro hex
    have htaken : isEmailTaken db data.email none = true := hiff.mpr hex
    unfold createUser
    rw [hvalid, htaken]
    rfl
  · intro hall
    have htaken : isEmailTaken db data.email none = false := by
      cases hT : isEmailTaken db data.email none
      · rfl
      · obtain ⟨u, hu, he⟩ := hiff.mp hT
        exact absurd he (hall u hu)
    constructor
    · unfold createUser
      rw [hvalid, htaken]
      rfl
    · unfold createUser
      rw [hvalid, htaken]
      rfl

/-- Witness for C9: with the identical email string, createUser does fail
with Email already taken. -/
theorem createUser_exact_email_uniqueness_witness :
    createUser exDb0 exactDupData =
      (.error (.apiError 400 "Email already taken"), exDb0) :=
  (createUser_exact_email_uniqueness exDb0 exactDupData (by decide)).1
    ⟨alice, by decide, rfl⟩

/-- Two token rows that agree on everything except possibly the stored
expires timestamp. -/
def tokenRecordSameExceptExpires (a b : TokenRecord) : Prop :=
  a.id = b.id ∧ a.token = b.token ∧ a.type = b.type ∧
  a.blacklisted = b.blacklisted ∧ a.userId = b.userId

/-- find? over two pointwise related lists, for a predicate that cannot
distinguish related elements. -/
theorem find?_congr_forall2 {R : TokenRecord → TokenRecord → Prop}
    {p : TokenRecord → Bool} (hp : ∀ a b, R a b → p a = p b) :
    ∀ {l1 l2 : List TokenRecord}, List.Forall₂ R l1 l2 →
      (l1.find? p = none ∧ l2.find? p = none) ∨
      (∃ a b, l1.find? p = some a ∧ l2.find? p = some b ∧ R a b) := by
  intro l1 l2 h
  induction h with
  | nil =>
    left
    exact ⟨rfl, rfl⟩
  | cons hab htl ih =>
    rename_i a b as bs
    cases hpa : p a with
    | true =>
      right
      have hpb : p b = true := by rw [← hp a b hab]; exact hpa
      exact ⟨a, b, by simp [List.find?_cons, hpa], by simp [List.find?_cons, hpb], hab⟩
    | false =>
      have hpb : p b = false := by rw [← hp a b hab]; exact hpa
      rcases ih with ⟨h1, h2⟩ | ⟨x, y, hx, hy, hxy⟩
      · left
        exact ⟨by simp [List.find?_cons, hpa, h1], by simp [List.find?_cons, hpb, h2]⟩
      · right
        exact ⟨x, y, by simp [List.find?_cons, hpa, hx],
          by simp [List.find?_cons, hpb, hy], hxy⟩

/-- verifyToken succeeds with the row found by the store lookup. -/
theorem verifyToken_eq_ok {cfg : JwtConfig} {now : Nat} {db : DB} {t : Jwt}
    {ty : TokenType} {doc : TokenRecord}
    (hc : jwtVerifyClaims t cfg.secret now = .ok t.payload)
    (hf : tokenFindFirst db (fun d =>
        d.token == t && d.type == ty && d.userId == t.payload.sub &&
        d.blacklisted == false) = some doc) :
    (verifyToken cfg now db t ty).1 = .ok doc := by
  unfold verifyToken
  simp only [hc]
  simp only [hf]

/-- C10: the outcome of verifyToken does not depend on the stored expires
field.  For two stores whose token tables agree row-by-row on everything
except possibly expires, verification fails with the same error in both or
succeeds with related rows in both; and a persisted, non-blacklisted
matching row makes verification succeed — regardless of its stored expires —
whenever the signature matches and the embedded exp is in the future. -/
theorem verifyToken_ignores_stored_expires (cfg : JwtConfig) (now : Nat)
    (t : Jwt) (ty : TokenType) (db1 db2 : DB)
    (h : List.Forall₂ tokenRecordSameExceptExpires db1.tokens db2.tokens) :
    ((∀ e, (verifyToken cfg now db1 t ty).1 = Except.error e ↔
        (verifyToken cfg now db2 t ty).1 = Except.error e)
     ∧ (∀ d1, (verifyToken cfg now db1 t ty).1 = .ok d1 →
        ∃ d2, (verifyToken cfg now db2 t ty).1 = .ok d2 ∧
          tokenRecordSameExceptExpires d1 d2))
    ∧ (∀ d ∈ db1.tokens, d.token = t → d.type = ty → d.userId = t.payload.sub →
        d.blacklisted = false → t.signedWith = cfg.secret → now < t.payload.exp →
        ∃ dr, (verifyToken cfg now db1 t ty).1 = .ok dr) := by
  constructor
  · cases hj : jwtVerifyClaims t cfg.secret now with
    | error e0 =>
      have h1 := @verifyToken_jwt_error cfg now db1 t ty e0 hj
      have h2 := @verifyToken_jwt_error cfg now db2 t ty e0 hj
      constructor
      · intro e
        rw [h1, h2]
      · intro d1 hd1
        rw [h1] at hd1
        simp at hd1
    | ok p =>
      obtain ⟨hp, hs, he⟩ := jwtVerifyClaims_ok hj
      subst hp
      have hpred : ∀ a b, tokenRecordSameExceptExpires a b →
          (fun d => d.token == t && d.type == ty && d.userId == t.payload.sub &&
            d.blacklisted == false) a =
          (fun d => d.token == t && d.type == ty && d.userId == t.payload.sub &&
            d.blacklisted == false) b := by
        rintro a b ⟨hid, htok, htyp, hbl, huid⟩
        simp only [htok, htyp, hbl, huid]
      rcases find?_congr_forall2 hpred h with ⟨hn1, hn2⟩ | ⟨x, y, hx, hy, hxy⟩
      · have e1 := @verifyToken_eq_not_found cfg now db1 t ty hj hn1
        have e2 := @verifyToken_eq_not_found cfg now db2 t ty hj hn2
        constructor
        · intro e
          rw [e1, e2]
        · intro d1 hd1
          rw [e1] at hd1
          simp at hd1
      · have e1 := @verifyToken_eq_ok cfg now db1 t ty x hj hx
        have e2 := @verifyToken_eq_ok cfg now db2 t ty y hj hy
        constructor
        · intro e
          rw [e1, e2]
          constructor
          · intro hc
            simp at hc
          · intro hc
            simp at hc
        · intro d1 hd1
          rw [e1] at hd1
          simp only [Except.ok.injEq] at hd1
          subst hd1
          exact ⟨y, e2, hxy⟩
  · intro d hd htok hty huid hbl hs he
    have hc := jwtVerifyClaims_ok_of hs he
    have hsome : (db1.tokens.find? (fun d => d.token == t && d.type == ty &&
        d.userId == t.payload.sub && d.blacklisted == false)).isSome = true := by
      rw [List.find?_isSome]
      exact ⟨d, hd, by simp [htok, hty, huid, hbl]⟩
    obtain ⟨dr, hdr⟩ := Option.isSome_iff_exists.mp hsome
    exact ⟨dr, verifyToken_eq_ok hc hdr⟩

/-- A store row for the reset token whose stored expires lies far in the
past, while the embedded exp is still in the future. -/
def dbStaleExpires : DB :=
  { users := [alice],
    tokens := [{ id := 0, token := resetTok, type := .RESET_PASSWORD,
                 expires := 0, blacklisted := false, userId := aliceId }],
    nextTokenId := 1, nextUserNum := 0 }

/-- The same store with the expires field set in the future instead. -/
def dbFreshExpires : DB :=
  { users := [alice],
    tokens := [{ id := 0, token := resetTok, type := .RESET_PASSWORD,
                 expires := exNow + 500, blacklisted := false, userId := aliceId }],
    nextTokenId := 1, nextUserNum := 0 }

/-- Witness for C10: the stale-expires and future-expires stores give the
same error behaviour, and the stale-expires row still verifies because the
embedded exp is in the future. -/
theorem verifyToken_ignores_stored_expires_witness :
    (∀ e, (verifyToken exCfg exNow dbStaleExpires resetTok .RESET_PASSWORD).1 =
        Except.error e ↔
      (verifyToken exCfg exNow dbFreshExpires resetTok .RESET_PASSWORD).1 =
        Except.error e)
    ∧ (∃ dr, (verifyToken exCfg exNow dbStaleExpires resetTok .RESET_PASSWORD).1 =
        .ok dr) := by
  have hf : List.Forall₂ tokenRecordSameExceptExpires dbStaleExpires.tokens
      dbFreshExpires.tokens := by
    refine List.Forall₂.cons ?_ List.Forall₂.nil
    exact ⟨rfl, rfl, rfl, rfl, rfl⟩
  constructor
  · exact ((verifyToken_ignores_stored_expires exCfg exNow resetTok .RESET_PASSWORD
      dbStaleExpires dbFreshExpires hf).1).1
  · exact (verifyToken_ignores_stored_expires exCfg exNow resetTok .RESET_PASSWORD
      dbStaleExpires dbFreshExpires hf).2
      { id := 0, token := resetTok, type := .RESET_PASSWORD,
        expires := 0, blacklisted := false, userId := aliceId }
      (by decide) rfl rfl rfl rfl rfl (by decide)
